import Mathlib

/-!
Verification of the STH (Short Time Historic) HTTP server core,
`src/lib/sth_server.js`, against its natural-language specification.

The JavaScript functions of the server are shallowly embedded as Lean
functions.  Asynchronous database callbacks are modelled by passing the
outcome of each database call as an explicit argument, and the arbitrary
completion order of the fan-out subtasks of one notification is modelled
by quantifying over all permutations of the generated completion events.
-/

set_option autoImplicit false

namespace STH

/-- A JavaScript runtime value as it may appear in an attribute `value`
field of a notification payload.  Numbers are modelled as integers (the
claims under study only depend on `typeof` and on truthiness, and the only
falsy number other than `NaN` is `0`; `NaN` cannot reach the handler
because `joi` is not involved on the notification path, but a `NaN`-valued
attribute would behave like `vNum 0`: falsy). -/
inductive JSValue where
  | vStr (s : String)
  | vNum (n : Int)
  | vBool (b : Bool)
  | vNull
  | vUndef
  | vObj
  deriving DecidableEq

/-- JavaScript truthiness of a value: `undefined`, `null`, `false`, `0` and
the empty string are falsy; objects are truthy. -/
def JSValue.truthy : JSValue → Bool
  | .vStr s => s != ""
  | .vNum n => n != 0
  | .vBool b => b
  | .vNull => false
  | .vUndef => false
  | .vObj => true

/-- `typeof v === 'string'`. -/
def JSValue.isString : JSValue → Bool
  | .vStr _ => true
  | _ => false

/-- `typeof v === 'number'`. -/
def JSValue.isNumber : JSValue → Bool
  | .vNum _ => true
  | _ => false

/-- `v.trim()` — only ever evaluated by the server when `v` is a string. -/
def JSValue.trimmed : JSValue → String
  | .vStr s => s.trim
  | _ => ""

/-- The three values of `sthConfig.DATA_TO_STORE`. -/
inductive DataToStore where
  | ONLY_RAW
  | ONLY_AGGREGATED
  | BOTH
  deriving DecidableEq

/-- The slice of `sthConfig` that `sth_server.js` consults on the paths
under study. -/
structure Config where
  IGNORE_BLANK_SPACES : Bool
  SHOULD_STORE : DataToStore
  deriving DecidableEq

/-- One attribute of a context element (`{name, type, value}`; the optional
`metadata` field is not consulted by the embedded functions). -/
structure Attribute where
  name : String
  type : String
  value : JSValue
  deriving DecidableEq

/-- A context element.  `attributes = none` models the cases the server
skips with its `contextElement.attributes && Array.isArray(...)` guard:
the field is absent, falsy, or not an array. -/
structure ContextElement where
  id : String
  type : String
  attributes : Option (List Attribute)
  deriving DecidableEq

/-- One entry of `contextResponses`.  `contextElement = none` models an
entry whose `contextElement` field is absent or falsy. -/
structure ContextResponse where
  contextElement : Option ContextElement
  deriving DecidableEq

/-- The skip test applied to each attribute, verbatim from both
`getTotalAttributes` and `processAttributes`:
`!value || (typeof value !== 'string' && typeof value !== 'number') ||
(IGNORE_BLANK_SPACES && typeof value === 'string' && value.trim() === '')`. -/
def attributeSkipped (cfg : Config) (a : Attribute) : Bool :=
  !a.value.truthy ||
    (!a.value.isString && !a.value.isNumber) ||
    (cfg.IGNORE_BLANK_SPACES && a.value.isString && (a.value.trimmed == ""))

/-- The attributes of one context response that the notification loop of
`processAttributes` dispatches subtasks for (the loop body over one entry
of `contextResponses`: entries without an attribute array contribute
nothing, skipped attributes `continue`), each paired with its context
element. -/
def responseRetained (cfg : Config) (cr : ContextResponse) :
    List (ContextElement × Attribute) :=
  match cr.contextElement with
  | some ce =>
    match ce.attributes with
    | some attrs => (attrs.filter fun a => !attributeSkipped cfg a).map fun a => (ce, a)
    | none => []
  | none => []

/-- All attributes `processAttributes` dispatches subtasks for, in
dispatch order. -/
def retainedAttributes (cfg : Config) (crs : List ContextResponse) :
    List (ContextElement × Attribute) :=
  crs.flatMap (responseRetained cfg)

/-- The body of `getTotalAttributes`' outer loop: adds to `total` the
number of attributes of one context response that pass the skip test. -/
def countAttributes (cfg : Config) (total : Nat) (cr : ContextResponse) : Nat :=
  match cr.contextElement with
  | some ce =>
    match ce.attributes with
    | some attrs =>
      attrs.foldl (fun t a => if attributeSkipped cfg a then t else t + 1) total
    | none => total
  | none => total

/-- `getTotalAttributes`: counts, over all context responses, the
attributes that pass the skip test. -/
def getTotalAttributes (cfg : Config) (crs : List ContextResponse) : Nat :=
  crs.foldl (countAttributes cfg) 0

/-- The structured `validation` body attached to a `boom.badRequest`
error: `{source: ..., keys: [...]}`. -/
structure ValidationBody where
  source : String
  keys : List String
  deriving DecidableEq

/-- What `processAttributes` decides before any database call: either the
early validation reply (`boom.badRequest`, HTTP 400), or the dispatch of
`storeRawData` and `storeAggregatedData` for every retained attribute,
with the computed `totalTasks`. -/
inductive ProcessOutcome where
  | badRequest (status : Nat) (validation : ValidationBody)
  | dispatch (tasks : List (ContextElement × Attribute)) (totalTasks : Nat)
  deriving DecidableEq

/-- `totalTasks` as computed by `processAttributes`:
`SHOULD_STORE === BOTH ? 2 * totalAttributes : 1 * totalAttributes`. -/
def notifyTotalTasks (cfg : Config) (crs : List ContextResponse) : Nat :=
  if cfg.SHOULD_STORE = DataToStore.BOTH then 2 * getTotalAttributes cfg crs
  else 1 * getTotalAttributes cfg crs

/-- `processAttributes`, up to the dispatch of the asynchronous store
subtasks. -/
def processAttributes (cfg : Config) (crs : List ContextResponse) : ProcessOutcome :=
  if getTotalAttributes cfg crs = 0 then
    ProcessOutcome.badRequest 400 ⟨"payload", ["attributes"]⟩
  else
    ProcessOutcome.dispatch (retainedAttributes cfg crs) (notifyTotalTasks cfg crs)

/-! ### The shared completion counter

`storeRawData` and `storeAggregatedData` synchronise through a shared
boxed counter (`counterObj`).  Every completion callback executes
`if (++counterObj.counter === totalTasks) reply(err)`.  JavaScript runs
the callbacks one at a time, in some environment-chosen order, so the
whole synchronisation is: a list of completion results (each carrying the
`err` passed to the callback, `none` for success) is processed
sequentially, the counter is incremented once per completion, and a reply
carrying that completion's `err` is emitted exactly when the incremented
counter equals `totalTasks`. -/

/-- Processes the completion events arriving after the counter already
holds `c`, and returns the list of replies emitted, in order.  This is the
embedding of `if (++counterObj.counter === totalTasks) reply(err)`. -/
def counterReplies (total : Nat) : Nat → List (Option String) → List (Option String)
  | _, [] => []
  | c, e :: rest =>
    if c + 1 = total then e :: counterReplies total (c + 1) rest
    else counterReplies total (c + 1) rest

/-- The guard of `sthDatabase.storeRawData` in `storeRawData`:
`SHOULD_STORE === ONLY_RAW || SHOULD_STORE === BOTH`. -/
def rawStoreEnabled (cfg : Config) : Bool :=
  match cfg.SHOULD_STORE with
  | DataToStore.ONLY_RAW => true
  | DataToStore.BOTH => true
  | DataToStore.ONLY_AGGREGATED => false

/-- The guard of `sthDatabase.storeAggregatedData` in
`storeAggregatedData`: `SHOULD_STORE === ONLY_AGGREGATED || SHOULD_STORE === BOTH`. -/
def aggregatedStoreEnabled (cfg : Config) : Bool :=
  match cfg.SHOULD_STORE with
  | DataToStore.ONLY_AGGREGATED => true
  | DataToStore.BOTH => true
  | DataToStore.ONLY_RAW => false

/-- The outcome the database produces for one `storeRawData` or
`storeAggregatedData` invocation: either `getCollection` calls back with
an error, or it succeeds and (when the store mode enables the write) the
subsequent document write calls back with `storeResult` (`none` =
success). -/
inductive DbOutcome where
  | collectionError (e : String)
  | collectionOk (storeResult : Option String)
  deriving DecidableEq

/-- The completion events one `storeRawData` invocation feeds to the
shared counter.  A `getCollection` error increments the counter with that
error; on success the counter is touched only when the raw write is
enabled (`ONLY_RAW` or `BOTH`) — otherwise the invocation finishes
without ever incrementing the counter. -/
def storeRawDataEvents (cfg : Config) (o : DbOutcome) : List (Option String) :=
  match o with
  | DbOutcome.collectionError e => [some e]
  | DbOutcome.collectionOk r => if rawStoreEnabled cfg then [r] else []

/-- The completion events one `storeAggregatedData` invocation feeds to
the shared counter (mirror image of `storeRawDataEvents`). -/
def storeAggregatedDataEvents (cfg : Config) (o : DbOutcome) : List (Option String) :=
  match o with
  | DbOutcome.collectionError e => [some e]
  | DbOutcome.collectionOk r => if aggregatedStoreEnabled cfg then [r] else []

/-- The completion events generated for one retained attribute: its
`storeRawData` invocation's events followed by its
`storeAggregatedData` invocation's events (`processAttributes` always
dispatches both). -/
def attributeEvents (cfg : Config) (o : DbOutcome × DbOutcome) : List (Option String) :=
  storeRawDataEvents cfg o.1 ++ storeAggregatedDataEvents cfg o.2

/-- All completion events of one notification, given the database outcome
of each retained attribute's pair of invocations, in dispatch order.  The
actual arrival order is an arbitrary permutation of this list. -/
def ingestEvents (cfg : Config) (outcomes : List (DbOutcome × DbOutcome)) :
    List (Option String) :=
  outcomes.flatMap (attributeEvents cfg)

/-- The first `err` observed among the settled subtask completions.  This
follows the specification text (the reply "carries the first observed
error"); it is the specification side of claim C1's comparison. -/
def specFirstObservedError (evs : List (Option String)) : Option String :=
  evs.findSome? id

/-! ### The GET data-query route -/

/-- The joi-validated query parameters of the GET data route that the
dispatch in the route handler consults.  After joi validation `lastN`,
`hLimit` and `hOffset` are absent or nonnegative integers, `aggrMethod`
and `aggrPeriod` are absent or drawn from their value enumerations, and
`filetype` is an arbitrary optional string.  `dateFrom`/`dateTo` play no
part in the dispatch and are omitted. -/
structure DataQuery where
  lastN : Option Nat
  hLimit : Option Nat
  hOffset : Option Nat
  aggrMethod : Option String
  aggrPeriod : Option String
  filetype : Option String
  deriving DecidableEq

/-- The test the handler applies to a numeric query parameter:
`request.query.lastN || request.query.lastN === 0` (truthy, or present
and equal to zero). -/
def queryNumPresent : Option Nat → Bool
  | none => false
  | some n => (n != 0) || (n == 0)

/-- JavaScript truthiness of an optional string (absent or empty is
falsy). -/
def queryStrTruthy : Option String → Bool
  | none => false
  | some s => s != ""

/-- JavaScript `String.prototype.toLowerCase`, modelled character-wise
(the values the server compares after lowercasing are ASCII). -/
def jsToLowerCase (s : String) : String :=
  String.mk (s.data.map Char.toLower)

/-- The filetype test of the handler:
`request.query.filetype && request.query.filetype.toLowerCase() === 'csv'`. -/
def filetypeIsCsv : Option String → Bool
  | none => false
  | some s => (s != "") && (jsToLowerCase s == "csv")

/-- Where the GET data route handler sends a validated query: the raw
path (`getRawData`), the aggregated path (`getAggregatedData`), or the
`boom.badRequest` validation reply. -/
inductive GetDispatch where
  | rawPath
  | aggregatedPath
  | badRequest (status : Nat) (validation : ValidationBody)
  deriving DecidableEq

/-- The dispatch performed by the GET data route handler, verbatim from
the `if / else if / else` chain of the route. -/
def getHandlerDispatch (q : DataQuery) : GetDispatch :=
  if queryNumPresent q.lastN ||
      (queryNumPresent q.hLimit && queryNumPresent q.hOffset) ||
      filetypeIsCsv q.filetype then
    GetDispatch.rawPath
  else if queryStrTruthy q.aggrMethod && queryStrTruthy q.aggrPeriod then
    GetDispatch.aggregatedPath
  else
    GetDispatch.badRequest 400
      ⟨"query", ["lastN", "hLimit", "hOffset", "filetype", "aggrMethod", "aggrPeriod"]⟩

/-- The dispatch rule exactly as the specification sentence states it:
`lastN` present, or `hLimit` and `hOffset` present, or `filetype = csv`
(literal equality), then raw; else both `aggrMethod` and `aggrPeriod`
present, then aggregated; else the validation error.  This is the
specification side of claim C2's comparison. -/
def specDispatch (q : DataQuery) : GetDispatch :=
  if q.lastN.isSome || (q.hLimit.isSome && q.hOffset.isSome) ||
      (q.filetype == some "csv") then
    GetDispatch.rawPath
  else if q.aggrMethod.isSome && q.aggrPeriod.isSome then
    GetDispatch.aggregatedPath
  else
    GetDispatch.badRequest 400
      ⟨"query", ["lastN", "hLimit", "hOffset", "filetype", "aggrMethod", "aggrPeriod"]⟩

/-- The dispatch rule with the one amendment claim C2's counterexample
forces: the `filetype` comparison with `csv` is case-insensitive, as the
handler lowercases the value before comparing. -/
def specDispatchAmended (q : DataQuery) : GetDispatch :=
  if q.lastN.isSome || (q.hLimit.isSome && q.hOffset.isSome) ||
      (q.filetype.map jsToLowerCase == some "csv") then
    GetDispatch.rawPath
  else if q.aggrMethod.isSome && q.aggrPeriod.isSome then
    GetDispatch.aggregatedPath
  else
    GetDispatch.badRequest 400
      ⟨"query", ["lastN", "hLimit", "hOffset", "filetype", "aggrMethod", "aggrPeriod"]⟩

/-! ### The raw and aggregated query handlers -/

/-- The outcome of the `sthDatabase.getCollection` call on the query path
(`shouldCreate: false`): either the callback receives an error — the code
comments this as "the collection may not exist" — or the collection is
found. -/
inductive CollectionLookup where
  | notFound (e : String)
  | found
  deriving DecidableEq

/-- What `sthDatabase.getRawData` calls back with: an error, a list of
documents, a stream, or (for CSV) a file path. -/
inductive DbRawResult where
  | dbError (e : String)
  | rows (docs : List String)
  | streamResult
  | filePath (p : String)
  deriving DecidableEq

/-- What `sthDatabase.getAggregatedData` calls back with: an error or a
list of documents. -/
inductive DbAggrResult where
  | dbError (e : String)
  | rows (docs : List String)
  deriving DecidableEq

/-- Modelled from the spec: `sthHelper.getNGSIPayload` and
`sthHelper.getEmptyResponse` live in `lib/sth_helper.js`, which is not
under `src/`.  §6's response envelope fixes the shape: entity id and
type, one attribute entry carrying the result values (`[]` when empty),
and status code 200/OK. -/
structure NGSIPayload where
  id : String
  type : String
  attrName : String
  values : List String
  statusCode : Nat
  deriving DecidableEq

/-- Modelled from the spec: `sthHelper.getEmptyResponse` is not under
`src/`; per §6 an empty result is the empty list of values. -/
def getEmptyResponse : List String := []

/-- A reply emitted by one of the two query handlers, together with the
HTTP headers explicitly set on it.  `payload` replies are sent with
hapi's default status 200; `errorReply` forwards the database error
(HTTP 500 per §6). -/
inductive QueryResponse where
  | payload (p : NGSIPayload) (headers : List (String × String))
  | errorReply (e : String) (headers : List (String × String))
  | streamReply (headers : List (String × String))
  | fileReply (p : String) (headers : List (String × String))
  deriving DecidableEq

/-- The headers set on a query reply. -/
def QueryResponse.respHeaders : QueryResponse → List (String × String)
  | .payload _ hs => hs
  | .errorReply _ hs => hs
  | .streamReply hs => hs
  | .fileReply _ hs => hs

/-- The `if (unicaCorrelatorPassed) response.header('Unica-Correlator', ...)`
step shared by the inner callbacks of both query handlers. -/
def correlatorHeaders (unicaCorrelatorPassed : Option String) : List (String × String) :=
  match unicaCorrelatorPassed with
  | some c => if c != "" then [("Unica-Correlator", c)] else []
  | none => []

/-- `getRawData` of `sth_server.js`: on a collection-lookup error it
replies immediately with the empty NGSI payload (and never reaches the
header-setting step); when the collection exists it forwards a database
error, replies with the empty payload when the result is empty, and
otherwise replies with the documents, the stream or the file, setting the
`Unica-Correlator` header when one was passed. -/
def getRawData (entityId entityType attrName : String) (lookup : CollectionLookup)
    (dbResult : DbRawResult) (unicaCorrelatorPassed : Option String) : QueryResponse :=
  match lookup with
  | CollectionLookup.notFound _ =>
    QueryResponse.payload ⟨entityId, entityType, attrName, getEmptyResponse, 200⟩ []
  | CollectionLookup.found =>
    let hs := correlatorHeaders unicaCorrelatorPassed
    match dbResult with
    | DbRawResult.dbError e => QueryResponse.errorReply e hs
    | DbRawResult.rows docs =>
      if docs.isEmpty then
        QueryResponse.payload ⟨entityId, entityType, attrName, getEmptyResponse, 200⟩ hs
      else
        QueryResponse.payload ⟨entityId, entityType, attrName, docs, 200⟩ hs
    | DbRawResult.streamResult => QueryResponse.streamReply hs
    | DbRawResult.filePath p => QueryResponse.fileReply p hs

/-- `getAggregatedData` of `sth_server.js`: same branch structure as
`getRawData`, without the stream and file cases. -/
def getAggregatedData (entityId entityType attrName : String) (lookup : CollectionLookup)
    (dbResult : DbAggrResult) (unicaCorrelatorPassed : Option String) : QueryResponse :=
  match lookup with
  | CollectionLookup.notFound _ =>
    QueryResponse.payload ⟨entityId, entityType, attrName, getEmptyResponse, 200⟩ []
  | CollectionLookup.found =>
    let hs := correlatorHeaders unicaCorrelatorPassed
    match dbResult with
    | DbAggrResult.dbError e => QueryResponse.errorReply e hs
    | DbAggrResult.rows docs =>
      if docs.isEmpty then
        QueryResponse.payload ⟨entityId, entityType, attrName, getEmptyResponse, 200⟩ hs
      else
        QueryResponse.payload ⟨entityId, entityType, attrName, docs, 200⟩ hs

/-! ### Header validation and the notify route -/

/-- The two scoping headers of a request, as the validators see them
(`value['fiware-service']`, `value['fiware-servicepath']`); `none` models
an absent header. -/
structure RequestHeaders where
  fiwareService : Option String
  fiwareServicePath : Option String
  deriving DecidableEq

/-- JavaScript truthiness of a header value (absent or empty is falsy). -/
def headerTruthy : Option String → Bool
  | none => false
  | some s => s != ""

/-- The result of the GET route's `headers` validator. -/
inductive HeadersValidation where
  | ok
  | badRequest (status : Nat) (validation : ValidationBody)
  deriving DecidableEq

/-- The `headers` validator of the GET data route.  The source calls
`next(error)` and then falls through to the unconditional `next()`; the
first invocation of hapi's continuation decides the outcome, so the
validator rejects with the first failing header's validation body. -/
def getHeadersValidator (h : RequestHeaders) : HeadersValidation :=
  if !headerTruthy h.fiwareService then
    HeadersValidation.badRequest 400 ⟨"headers", ["fiware-service"]⟩
  else if !headerTruthy h.fiwareServicePath then
    HeadersValidation.badRequest 400 ⟨"headers", ["fiware-servicepath"]⟩
  else
    HeadersValidation.ok

/-- The `contextResponses` field of a notify payload as JavaScript sees
it: absent (or falsy), present but not an array, or an array. -/
inductive ContextResponsesField where
  | absent
  | nonArray
  | array (crs : List ContextResponse)
  deriving DecidableEq

/-- The body of a POST /notify request; `payload = none` models an absent
or falsy `request.payload`. -/
structure NotifyRequest where
  payload : Option ContextResponsesField
  deriving DecidableEq

/-- What the POST /notify route handler does with a request.  The
source guards `processAttributes` with
`request.payload && request.payload.contextResponses && Array.isArray(...)`
and has no `else` branch: a request failing the guard falls off the end
of the handler and no reply is ever emitted. -/
inductive NotifyHandlerResult where
  | processed (crs : List ContextResponse)
  | noReply
  deriving DecidableEq

/-- The POST /notify route handler's guard. -/
def notifyHandler (req : NotifyRequest) : NotifyHandlerResult :=
  match req.payload with
  | some (ContextResponsesField.array crs) => NotifyHandlerResult.processed crs
  | some ContextResponsesField.absent => NotifyHandlerResult.noReply
  | some ContextResponsesField.nonArray => NotifyHandlerResult.noReply
  | none => NotifyHandlerResult.noReply

/-! ### The database calls of one store subtask (collection creation) -/

/-- The options object `storeRawData` and `storeAggregatedData` pass to
`sthDatabase.getCollection`. -/
structure GetCollectionOptions where
  isAggregated : Bool
  shouldCreate : Bool
  shouldStoreHash : Bool
  shouldTruncate : Bool
  deriving DecidableEq

/-- A database call made by a store subtask: the collection
location-or-creation, the raw document write, or the aggregated document
write. -/
inductive DbCall where
  | getCollection (opts : GetCollectionOptions)
  | storeRawDoc
  | storeAggrDoc
  deriving DecidableEq

/-- The database calls one `storeRawData` invocation issues:
`getCollection` with `{isAggregated: false, shouldCreate: true,
shouldStoreHash: true, shouldTruncate: true}` unconditionally, then the
raw document write iff the store mode enables it and the collection was
obtained. -/
def storeRawDataCalls (cfg : Config) (lookup : CollectionLookup) : List DbCall :=
  DbCall.getCollection ⟨false, true, true, true⟩ ::
    (match lookup with
     | CollectionLookup.notFound _ => []
     | CollectionLookup.found => if rawStoreEnabled cfg then [DbCall.storeRawDoc] else [])

/-- The database calls one `storeAggregatedData` invocation issues
(mirror image of `storeRawDataCalls`, with `isAggregated: true`). -/
def storeAggregatedDataCalls (cfg : Config) (lookup : CollectionLookup) : List DbCall :=
  DbCall.getCollection ⟨true, true, true, true⟩ ::
    (match lookup with
     | CollectionLookup.notFound _ => []
     | CollectionLookup.found =>
       if aggregatedStoreEnabled cfg then [DbCall.storeAggrDoc] else [])

/-! ### Specification-side definitions used for refinement comparisons -/

/-- The retention rule exactly as claim C4 states it: the value is a
string or a number, and, when blank-space ignoring is configured, its
trimmed string value is not empty.  This is the specification side of
claim C4's comparison. -/
def specRetained (cfg : Config) (v : JSValue) : Bool :=
  (v.isString || v.isNumber) &&
    !(cfg.IGNORE_BLANK_SPACES && v.isString && (v.trimmed == ""))

/-- The retention rule with the one amendment claim C4's counterexample
forces: the value must additionally be truthy (the server's leading
`!value` test), so the number `0` and the empty string are always
dropped. -/
def specRetainedAmended (cfg : Config) (v : JSValue) : Bool :=
  v.truthy && (v.isString || v.isNumber) &&
    !(cfg.IGNORE_BLANK_SPACES && v.isString && (v.trimmed == ""))

/-! ### Helper lemmas -/

/-- Closed form of the shared counter: starting from counter value `c`,
the replies emitted are exactly the event at arrival position
`total - c - 1`, when it exists. -/
theorem counterReplies_eq (total : Nat) (evs : List (Option String)) :
    ∀ c, counterReplies total c evs =
      if c < total then (evs[total - c - 1]?).toList else [] := by
  induction evs with
  | nil =>
    intro c
    rw [counterReplies]
    split <;> simp
  | cons e rest ih =>
    intro c
    rw [counterReplies]
    by_cases h : c + 1 = total
    · rw [if_pos h, ih (c + 1)]
      have h1 : ¬ c + 1 < total := by omega
      have h2 : c < total := by omega
      have h3 : total - c - 1 = 0 := by omega
      rw [if_neg h1, if_pos h2, h3]
      simp
    · rw [if_neg h, ih (c + 1)]
      by_cases h2 : c + 1 < total
      · have h3 : c < total := by omega
        have h4 : total - c - 1 = total - (c + 1) - 1 + 1 := by omega
        rw [if_pos h2, if_pos h3, h4]
        simp
      · have h3 : ¬ c < total := by omega
        rw [if_neg h2, if_neg h3]

/-- The number of replies the shared counter emits: exactly one when the
task total is positive and at least that many completions arrive, zero
otherwise. -/
theorem counterReplies_length (total : Nat) (evs : List (Option String)) :
    (counterReplies total 0 evs).length =
      if 1 ≤ total ∧ total ≤ evs.length then 1 else 0 := by
  rw [counterReplies_eq total evs 0]
  by_cases h : 0 < total
  · by_cases h2 : total ≤ evs.length
    · have h3 : total - 0 - 1 < evs.length := by omega
      rw [if_pos h, List.getElem?_eq_getElem h3, if_pos ⟨h, h2⟩]
      rfl
    · have h3 : evs.length ≤ total - 0 - 1 := by omega
      rw [if_pos h, List.getElem?_eq_none h3, if_neg (by omega)]
      rfl
  · rw [if_neg h, if_neg (by omega)]
    rfl

/-- Each retained attribute's pair of store invocations feeds at least
`2` completion events to the counter in `BOTH` mode and at least `1` in
the other modes. -/
theorem attributeEvents_length (cfg : Config) (o : DbOutcome × DbOutcome) :
    (if cfg.SHOULD_STORE = DataToStore.BOTH then 2 else 1) ≤
      (attributeEvents cfg o).length := by
  obtain ⟨ib, ss⟩ := cfg
  obtain ⟨o1, o2⟩ := o
  cases ss <;> cases o1 <;> cases o2 <;>
    simp [attributeEvents, storeRawDataEvents, storeAggregatedDataEvents,
      rawStoreEnabled, aggregatedStoreEnabled]

/-- One notification's completion events number at least `totalTasks`. -/
theorem ingestEvents_length (cfg : Config) (outcomes : List (DbOutcome × DbOutcome)) :
    (if cfg.SHOULD_STORE = DataToStore.BOTH then 2 else 1) * outcomes.length ≤
      (ingestEvents cfg outcomes).length := by
  induction outcomes with
  | nil => simp [ingestEvents]
  | cons o os ih =>
    have h := attributeEvents_length cfg o
    rw [ingestEvents] at ih ⊢
    rw [List.flatMap_cons, List.length_append, List.length_cons]
    by_cases hb : cfg.SHOULD_STORE = DataToStore.BOTH <;>
      simp only [hb, if_pos, if_neg, if_true, if_false] at h ih ⊢ <;> omega

/-- The inner attribute loop of `getTotalAttributes` counts the
attributes passing the skip test. -/
theorem attrLoop_eq (cfg : Config) (attrs : List Attribute) :
    ∀ t : Nat,
      attrs.foldl (fun t a => if attributeSkipped cfg a then t else t + 1) t =
        t + (attrs.filter fun a => !attributeSkipped cfg a).length := by
  induction attrs with
  | nil => intro t; simp
  | cons a attrs ih =>
    intro t
    by_cases h : attributeSkipped cfg a
    · simp [List.foldl_cons, List.filter_cons, h, ih]
    · simp [List.foldl_cons, List.filter_cons, h, ih (t + 1)]
      omega

/-- The outer loop body of `getTotalAttributes` counts one context
response's retained attributes. -/
theorem countAttributes_eq (cfg : Config) (t : Nat) (cr : ContextResponse) :
    countAttributes cfg t cr = t + (responseRetained cfg cr).length := by
  obtain ⟨oce⟩ := cr
  cases oce with
  | none => rfl
  | some ce =>
    obtain ⟨i, ty, oattrs⟩ := ce
    cases oattrs with
    | none => rfl
    | some attrs =>
      simp only [countAttributes, responseRetained]
      rw [attrLoop_eq]
      simp

/-- `retainedAttributes` unfolded one context response at a time. -/
theorem retainedAttributes_cons (cfg : Config) (cr : ContextResponse)
    (crs : List ContextResponse) :
    retainedAttributes cfg (cr :: crs) =
      responseRetained cfg cr ++ retainedAttributes cfg crs := by
  rw [retainedAttributes, retainedAttributes, List.flatMap_cons]

/-- `getTotalAttributes` counts exactly the retained attributes. -/
theorem getTotalAttributes_eq (cfg : Config) (crs : List ContextResponse) :
    getTotalAttributes cfg crs = (retainedAttributes cfg crs).length := by
  suffices h : ∀ t : Nat,
      crs.foldl (countAttributes cfg) t = t + (retainedAttributes cfg crs).length by
    simpa [getTotalAttributes] using h 0
  induction crs with
  | nil => intro t; simp [retainedAttributes]
  | cons cr crs ih =>
    intro t
    rw [List.foldl_cons, ih, countAttributes_eq, retainedAttributes_cons,
      List.length_append]
    omega

/-- After joi validation a numeric query parameter is absent or a
nonnegative integer, so the handler's truthy-or-zero test is exactly
presence. -/
theorem queryNumPresent_eq_isSome (o : Option Nat) : queryNumPresent o = o.isSome := by
  cases o with
  | none => rfl
  | some n => by_cases h : n = 0 <;> simp [queryNumPresent, h]

/-- The handler's filetype test equals the case-insensitive comparison of
the supplied value with `csv`. -/
theorem filetypeIsCsv_eq (o : Option String) :
    filetypeIsCsv o = (o.map jsToLowerCase == some "csv") := by
  cases o with
  | none => rfl
  | some s =>
    by_cases h : s = ""
    · subst h; rfl
    · simp [filetypeIsCsv, h]

/-- For a parameter whose possible values are non-empty strings, the
handler's truthiness test is exactly presence. -/
theorem queryStrTruthy_eq_isSome (o : Option String) (h : ∀ s, o = some s → s ≠ "") :
    queryStrTruthy o = o.isSome := by
  cases o with
  | none => rfl
  | some s => simp [queryStrTruthy, h s rfl]

/-! ### Claim theorems -/

/-- Claim C1 (counterexample): the single HTTP reply does not carry the
first observed subtask error.  One retained attribute in `BOTH` mode
(total 2 tasks): the raw store fails with error `E`, then the aggregated
store succeeds; the counter reaches the total on the success, so the one
reply carries success (`none`), while the first observed subtask error is
`E`. -/
theorem reply_not_first_error_cex :
    counterReplies
        (notifyTotalTasks ⟨false, DataToStore.BOTH⟩
          [⟨some ⟨"E1", "T", some [⟨"a", "Number", JSValue.vNum 5⟩]⟩⟩])
        0
        (ingestEvents ⟨false, DataToStore.BOTH⟩
          [(DbOutcome.collectionOk (some "E"), DbOutcome.collectionOk none)]) =
      [none] ∧
    specFirstObservedError
        (ingestEvents ⟨false, DataToStore.BOTH⟩
          [(DbOutcome.collectionOk (some "E"), DbOutcome.collectionOk none)]) =
      some "E" := by
  exact ⟨rfl, rfl⟩

/-- Claim C1 (amended): once all subtasks have settled, the single HTTP
reply carries the result of the completion that makes the shared counter
reach the total task count — the `totalTasks`-th completion in arrival
order — its error if that subtask failed, success otherwise; errors
observed earlier are not reflected. -/
theorem reply_carries_firing_completion (total : Nat) (evs : List (Option String))
    (h1 : 1 ≤ total) (h2 : total - 1 < evs.length) :
    counterReplies total 0 evs = [evs.get ⟨total - 1, h2⟩] := by
  rw [counterReplies_eq total evs 0, if_pos (by omega : 0 < total)]
  have h3 : total - 0 - 1 = total - 1 := by omega
  rw [h3, List.getElem?_eq_getElem h2]
  simp

/-- Witness for the amended claim C1 at the counterexample's input: the
reply is the second completion's result. -/
theorem reply_carries_firing_completion_witness :
    counterReplies 2 0 [some "E", none] = [none] :=
  reply_carries_firing_completion 2 [some "E", none] (by omega) (by simp)

/-- Claim C2 (counterexample): a query whose only parameter is
`filetype=CSV` is dispatched to the raw path by the handler (the
comparison is case-insensitive), while the dispatch rule as literally
stated sends it to the validation-error branch. -/
theorem dispatch_filetype_case_cex :
    getHandlerDispatch ⟨none, none, none, none, none, some "CSV"⟩ =
      GetDispatch.rawPath ∧
    specDispatch ⟨none, none, none, none, none, some "CSV"⟩ =
      GetDispatch.badRequest 400
        ⟨"query", ["lastN", "hLimit", "hOffset", "filetype", "aggrMethod", "aggrPeriod"]⟩ := by
  exact ⟨rfl, rfl⟩

/-- Claim C2 (amended): for every joi-validated GET data query (so the
aggregation parameters, when present, are drawn from their non-empty
value enumerations), the handler dispatches exactly per the rule with
first match winning — raw when `lastN` is present (including 0), or both
`hLimit` and `hOffset` are present, or `filetype` case-insensitively
equals `csv`; else aggregated when both `aggrMethod` and `aggrPeriod` are
present; else the validation error listing the six query keys — and the
error branch runs iff neither path matches. -/
theorem dispatch_rule_amended (q : DataQuery)
    (hm : ∀ s, q.aggrMethod = some s → s ≠ "")
    (hp : ∀ s, q.aggrPeriod = some s → s ≠ "") :
    getHandlerDispatch q = specDispatchAmended q := by
  rw [getHandlerDispatch, specDispatchAmended,
    queryNumPresent_eq_isSome, queryNumPresent_eq_isSome, queryNumPresent_eq_isSome,
    filetypeIsCsv_eq, queryStrTruthy_eq_isSome q.aggrMethod hm,
    queryStrTruthy_eq_isSome q.aggrPeriod hp]

/-- Witness for the amended claim C2 at a concrete aggregated query. -/
theorem dispatch_rule_amended_witness :
    getHandlerDispatch ⟨none, none, none, some "min", some "second", none⟩ =
      specDispatchAmended ⟨none, none, none, some "min", some "second", none⟩ :=
  dispatch_rule_amended ⟨none, none, none, some "min", some "second", none⟩
    (by intro s h; cases h; decide) (by intro s h; cases h; decide)

/-- Claim C3: for every processed notification with at least one retained
attribute, whatever database outcome each subtask meets and in whatever
order the completions arrive (any permutation of the generated completion
events), the shared counter — incremented once per completion — fires the
HTTP reply exactly once, when it reaches `totalTasks` (twice the retained
count in `BOTH` mode, the retained count otherwise); no later completion
emits a second reply. -/
theorem single_reply_emitted (cfg : Config) (crs : List ContextResponse)
    (outcomes : List (DbOutcome × DbOutcome)) (evs : List (Option String))
    (hn : retainedAttributes cfg crs ≠ [])
    (ho : outcomes.length = (retainedAttributes cfg crs).length)
    (hperm : List.Perm evs (ingestEvents cfg outcomes)) :
    (counterReplies (notifyTotalTasks cfg crs) 0 evs).length = 1 := by
  have hlen : evs.length = (ingestEvents cfg outcomes).length := hperm.length_eq
  have hge := ingestEvents_length cfg outcomes
  have htot := getTotalAttributes_eq cfg crs
  have hn1 : 1 ≤ (retainedAttributes cfg crs).length := by
    cases h : retainedAttributes cfg crs with
    | nil => exact absurd h hn
    | cons x xs => simp [h]
  rw [counterReplies_length, if_pos]
  rw [notifyTotalTasks]
  by_cases hb : cfg.SHOULD_STORE = DataToStore.BOTH <;>
    simp only [hb, if_pos, if_neg, if_true, if_false] at hge ⊢ <;>
    constructor <;> omega

/-- Witness for claim C3: one retained attribute in `BOTH` mode, both
stores succeeding, completions arriving in dispatch order: exactly one
reply. -/
theorem single_reply_emitted_witness :
    (counterReplies
        (notifyTotalTasks ⟨false, DataToStore.BOTH⟩
          [⟨some ⟨"E1", "T", some [⟨"a", "Number", JSValue.vNum 5⟩]⟩⟩])
        0 [none, none]).length = 1 :=
  single_reply_emitted ⟨false, DataToStore.BOTH⟩
    [⟨some ⟨"E1", "T", some [⟨"a", "Number", JSValue.vNum 5⟩]⟩⟩]
    [(DbOutcome.collectionOk none, DbOutcome.collectionOk none)]
    [none, none]
    (by decide) (by decide) (List.Perm.refl _)

/-- Claim C4 (counterexample): an attribute whose value is the number `0`
is a number, so the claimed rule retains it, but the server's skip test
(`!value || ...`) drops it: `0` is falsy. -/
theorem numeric_zero_dropped_cex :
    attributeSkipped ⟨false, DataToStore.BOTH⟩ ⟨"a", "Number", JSValue.vNum 0⟩ = true ∧
    specRetained ⟨false, DataToStore.BOTH⟩ (JSValue.vNum 0) = true := by
  exact ⟨rfl, rfl⟩

/-- Claim C4 (amended): an attribute is retained for storage iff its
value is truthy (so the number `0` and the empty string are always
dropped) and is a string or a number and, when blank-space ignoring is
configured, its trimmed string value is not empty; all other attributes
are dropped by the skip test and so contribute no subtask. -/
theorem retention_rule_amended (cfg : Config) (a : Attribute) :
    (!attributeSkipped cfg a) = specRetainedAmended cfg a.value := by
  obtain ⟨n, ty, v⟩ := a
  obtain ⟨ib, ss⟩ := cfg
  cases v <;> cases ib <;>
    simp [attributeSkipped, specRetainedAmended, JSValue.truthy, JSValue.isString,
      JSValue.isNumber, JSValue.trimmed, Bool.not_or, Bool.and_assoc]

/-- Claim C5: a notification whose retained attribute list is empty is
answered with the 400 validation reply `{source: payload, keys:
[attributes]}` before any store subtask is dispatched (the outcome is the
`badRequest` reply, not a `dispatch`). -/
theorem empty_attributes_validation (cfg : Config) (crs : List ContextResponse)
    (h : retainedAttributes cfg crs = []) :
    processAttributes cfg crs =
      ProcessOutcome.badRequest 400 ⟨"payload", ["attributes"]⟩ := by
  rw [processAttributes, if_pos]
  rw [getTotalAttributes_eq, h]
  rfl

/-- Witness for claim C5: a notification whose only attribute carries the
non-aggregatable value `0` retains nothing and is rejected. -/
theorem empty_attributes_validation_witness :
    processAttributes ⟨false, DataToStore.BOTH⟩
        [⟨some ⟨"E1", "T", some [⟨"a", "Number", JSValue.vNum 0⟩]⟩⟩] =
      ProcessOutcome.badRequest 400 ⟨"payload", ["attributes"]⟩ :=
  empty_attributes_validation ⟨false, DataToStore.BOTH⟩
    [⟨some ⟨"E1", "T", some [⟨"a", "Number", JSValue.vNum 0⟩]⟩⟩] (by decide)

/-- Claim C6: when the collection lookup of a raw or aggregated GET query
fails (the collection does not exist), the handler replies with the NGSI
payload carrying the empty values list and status 200, never an error,
whatever the database would have answered. -/
theorem collection_absent_empty_200 (entityId entityType attrName e : String)
    (dbR : DbRawResult) (dbA : DbAggrResult) (corr : Option String) :
    getRawData entityId entityType attrName (CollectionLookup.notFound e) dbR corr =
      QueryResponse.payload ⟨entityId, entityType, attrName, [], 200⟩ [] ∧
    getAggregatedData entityId entityType attrName (CollectionLookup.notFound e) dbA corr =
      QueryResponse.payload ⟨entityId, entityType, attrName, [], 200⟩ [] := by
  exact ⟨rfl, rfl⟩

/-- Claim C7 (code evaluated at the failing inputs): a POST /notify
request with an absent payload, a payload without `contextResponses`, or
a non-array `contextResponses` falls off the end of the handler — no
reply at all is emitted, in particular not the specified validation
400. -/
theorem malformed_notify_no_reply :
    notifyHandler ⟨none⟩ = NotifyHandlerResult.noReply ∧
    notifyHandler ⟨some ContextResponsesField.absent⟩ = NotifyHandlerResult.noReply ∧
    notifyHandler ⟨some ContextResponsesField.nonArray⟩ = NotifyHandlerResult.noReply := by
  exact ⟨rfl, rfl, rfl⟩

/-- Claim C8 (counterexample): a GET query carrying
`Unica-Correlator: corr1` that hits the absent-collection branch is
answered without any header being set — the echo step lives only in the
collection-found callbacks. -/
theorem correlator_not_echoed_cex :
    (getRawData "E1" "T" "a" (CollectionLookup.notFound "err")
        (DbRawResult.rows ["d"]) (some "corr1")).respHeaders = [] ∧
    (getAggregatedData "E1" "T" "a" (CollectionLookup.notFound "err")
        (DbAggrResult.rows ["d"]) (some "corr1")).respHeaders = [] := by
  exact ⟨rfl, rfl⟩

/-- Claim C8 (amended): when the collection exists, every reply branch of
both query handlers (data, empty result, database error, stream, file)
carries the `Unica-Correlator` header equal to the supplied value; the
absent-collection reply does not. -/
theorem correlator_echoed_when_collection_found (entityId entityType attrName : String)
    (dbR : DbRawResult) (dbA : DbAggrResult) (c : String) (hc : c ≠ "") :
    (getRawData entityId entityType attrName CollectionLookup.found dbR
        (some c)).respHeaders = [("Unica-Correlator", c)] ∧
    (getAggregatedData entityId entityType attrName CollectionLookup.found dbA
        (some c)).respHeaders = [("Unica-Correlator", c)] := by
  have hh : correlatorHeaders (some c) = [("Unica-Correlator", c)] := by
    simp [correlatorHeaders, hc]
  constructor
  · cases dbR with
    | dbError e => simp [getRawData, QueryResponse.respHeaders, hh]
    | rows docs =>
      by_cases hd : docs.isEmpty <;>
        simp [getRawData, QueryResponse.respHeaders, hh, hd]
    | streamResult => simp [getRawData, QueryResponse.respHeaders, hh]
    | filePath p => simp [getRawData, QueryResponse.respHeaders, hh]
  · cases dbA with
    | dbError e => simp [getAggregatedData, QueryResponse.respHeaders, hh]
    | rows docs =>
      by_cases hd : docs.isEmpty <;>
        simp [getAggregatedData, QueryResponse.respHeaders, hh, hd]

/-- Witness for the amended claim C8 at a concrete correlator value. -/
theorem correlator_echoed_when_collection_found_witness :
    (getRawData "E1" "T" "a" CollectionLookup.found (DbRawResult.rows [])
        (some "corr1")).respHeaders = [("Unica-Correlator", "corr1")] ∧
    (getAggregatedData "E1" "T" "a" CollectionLookup.found (DbAggrResult.rows [])
        (some "corr1")).respHeaders = [("Unica-Correlator", "corr1")] :=
  correlator_echoed_when_collection_found "E1" "T" "a" (DbRawResult.rows [])
    (DbAggrResult.rows []) "corr1" (by decide)

/-- Claim C9: a GET data query without the `fiware-service` header is
rejected 400 with validation `{source: headers, keys: [fiware-service]}`;
with `fiware-service` supplied but `fiware-servicepath` missing, 400 with
keys `[fiware-servicepath]`. -/
theorem missing_service_headers_400 (sp : Option String) (s : String) (hs : s ≠ "") :
    getHeadersValidator ⟨none, sp⟩ =
      HeadersValidation.badRequest 400 ⟨"headers", ["fiware-service"]⟩ ∧
    getHeadersValidator ⟨some s, none⟩ =
      HeadersValidation.badRequest 400 ⟨"headers", ["fiware-servicepath"]⟩ := by
  constructor
  · rfl
  · simp [getHeadersValidator, headerTruthy, hs]

/-- Witness for claim C9 at concrete header values. -/
theorem missing_service_headers_400_witness :
    getHeadersValidator ⟨none, some "p"⟩ =
      HeadersValidation.badRequest 400 ⟨"headers", ["fiware-service"]⟩ ∧
    getHeadersValidator ⟨some "sth", none⟩ =
      HeadersValidation.badRequest 400 ⟨"headers", ["fiware-servicepath"]⟩ :=
  missing_service_headers_400 (some "p") "sth" (by decide)

/-- Claim C10: each store subtask first issues `getCollection` with
`shouldCreate`, `shouldStoreHash` and `shouldTruncate` all true —
locating or creating the raw and the aggregated collection whatever the
store mode — while `SHOULD_STORE` gates only the document write: the raw
document is written iff the mode is `ONLY_RAW` or `BOTH` and the
collection was obtained, the aggregated document iff the mode is
`ONLY_AGGREGATED` or `BOTH` and the collection was obtained. -/
theorem collections_created_regardless_of_mode (cfg : Config)
    (lr la : CollectionLookup) :
    (storeRawDataCalls cfg lr).head? =
      some (DbCall.getCollection ⟨false, true, true, true⟩) ∧
    (storeAggregatedDataCalls cfg la).head? =
      some (DbCall.getCollection ⟨true, true, true, true⟩) ∧
    (DbCall.storeRawDoc ∈ storeRawDataCalls cfg lr ↔
      (rawStoreEnabled cfg = true ∧ lr = CollectionLookup.found)) ∧
    (DbCall.storeAggrDoc ∈ storeAggregatedDataCalls cfg la ↔
      (aggregatedStoreEnabled cfg = true ∧ la = CollectionLookup.found)) := by
  refine ⟨rfl, rfl, ?_, ?_⟩
  · cases lr with
    | notFound e => simp [storeRawDataCalls]
    | found => cases h : rawStoreEnabled cfg <;> simp [storeRawDataCalls, h]
  · cases la with
    | notFound e => simp [storeAggregatedDataCalls]
    | found => cases h : aggregatedStoreEnabled cfg <;> simp [storeAggregatedDataCalls, h]

end STH
